import Mathlib

/-!
Verification development for the boxing-intelligence MCP orchestrator.

Shallow embedding of the parts of the repository that the checked
properties concern:

- the resilience module (retry with exponential backoff, circuit breaker,
  fallback handler) from langchain_integration/resilience.py;
- the performance monitor from observability/monitoring.py;
- the tool-map construction and the tool-calling orchestration loop from
  frontend/app.py (process_query, get_server_for_tool, initialize_platform).

Machine floats of the source are modelled as rationals; wall-clock time is
passed explicitly as a rational timestamp; exceptions become Except or
Option values; the asynchronous calls of the source are sequential in the
source program order, so they are embedded as plain function calls.
-/

/-! ## Retry with exponential backoff (resilience.py, retry_with_backoff) -/

/-- Embeds class RetryConfig of resilience.py. -/
structure RetryConfig where
  max_attempts : Nat
  initial_delay : ℚ
  backoff_factor : ℚ
  max_delay : ℚ
deriving Repr, DecidableEq

/-- The default RetryConfig() of the source: 3 attempts, 1.0s initial delay,
factor 2.0, cap 30.0s. -/
def RetryConfig.default : RetryConfig :=
  { max_attempts := 3, initial_delay := 1, backoff_factor := 2, max_delay := 30 }

/-- Embeds the for-loop of retry_with_backoff.  The wrapped function is
modelled as a map from the 1-based attempt number to its outcome on that
attempt.  Returns the final outcome together with the total time slept;
none models the fall-through raise of a None last_exception, reachable
only when max_attempts is 0. -/
def retryAux {E α : Type} (f : Nat → Except E α) (factor maxDelay : ℚ) :
    Nat → Nat → ℚ → Option (Except E α × ℚ)
  | 0, _, _ => none
  | remaining + 1, attempt, delay =>
    match f attempt with
    | Except.ok a => some (Except.ok a, 0)
    | Except.error e =>
      if remaining = 0 then
        some (Except.error e, 0)
      else
        match retryAux f factor maxDelay remaining (attempt + 1)
            (min (delay * factor) maxDelay) with
        | none => none
        | some (r, s) => some (r, delay + s)

/-- Embeds retry_with_backoff of resilience.py: run f for up to
cfg.max_attempts attempts, sleeping delay between failed attempts, where
delay starts at cfg.initial_delay and is updated to
min (delay * backoff_factor) max_delay after each sleep. -/
def retry_with_backoff {E α : Type} (f : Nat → Except E α) (cfg : RetryConfig) :
    Option (Except E α × ℚ) :=
  retryAux f cfg.backoff_factor cfg.max_delay cfg.max_attempts 1 cfg.initial_delay

/-- Total sleep performed by the source loop when k sleeps happen, starting
from delay d: the loop sleeps d, then recurses with min (d * factor) maxDelay. -/
def sleptFrom (factor maxDelay : ℚ) : ℚ → Nat → ℚ
  | _, 0 => 0
  | d, k + 1 => d + sleptFrom factor maxDelay (min (d * factor) maxDelay) k

/-- The geometric backoff series with every term capped at max_delay, as the
spec describes the total sleep time. -/
def cappedBackoffSum (cfg : RetryConfig) : ℚ :=
  ∑ j ∈ Finset.range (cfg.max_attempts - 1),
    min (cfg.initial_delay * cfg.backoff_factor ^ j) cfg.max_delay

/-! ## Circuit breaker (resilience.py, class CircuitBreaker) -/

inductive CBState where
  | CLOSED
  | OPEN
  | HALF_OPEN
deriving Repr, DecidableEq

/-- Embeds class CircuitBreaker of resilience.py.  last_failure_time is
None until the first failure is recorded. -/
structure CircuitBreaker where
  failure_threshold : Nat
  recovery_timeout : ℚ
  success_threshold : Nat
  failure_count : Nat
  success_count : Nat
  last_failure_time : Option ℚ
  state : CBState
deriving Repr, DecidableEq

/-- CircuitBreaker() with the constructor defaults of the source:
failure_threshold 5, recovery_timeout 60.0, success_threshold 2. -/
def CircuitBreaker.init : CircuitBreaker :=
  { failure_threshold := 5, recovery_timeout := 60, success_threshold := 2,
    failure_count := 0, success_count := 0, last_failure_time := none,
    state := CBState.CLOSED }

/-- Embeds CircuitBreaker.is_open, with time.time() passed as now.  Returns
the boolean result together with the possibly updated breaker; none models
the TypeError of subtracting a None last_failure_time, unreachable from
states produced by record_failure. -/
def CircuitBreaker.is_open (cb : CircuitBreaker) (now : ℚ) :
    Option (Bool × CircuitBreaker) :=
  match cb.state with
  | CBState.OPEN =>
    match cb.last_failure_time with
    | none => none
    | some t =>
      if cb.recovery_timeout ≤ now - t then
        some (false, { cb with state := CBState.HALF_OPEN, success_count := 0 })
      else
        some (true, cb)
  | _ => some (false, cb)

/-- Embeds CircuitBreaker.record_success. -/
def CircuitBreaker.record_success (cb : CircuitBreaker) : CircuitBreaker :=
  let cb1 := { cb with failure_count := 0 }
  if cb1.state = CBState.HALF_OPEN then
    let cb2 := { cb1 with success_count := cb1.success_count + 1 }
    if cb2.success_threshold ≤ cb2.success_count then
      { cb2 with state := CBState.CLOSED }
    else
      cb2
  else
    cb1

/-- Embeds CircuitBreaker.record_failure, with time.time() passed as now. -/
def CircuitBreaker.record_failure (cb : CircuitBreaker) (now : ℚ) : CircuitBreaker :=
  let cb1 := { cb with failure_count := cb.failure_count + 1,
                       last_failure_time := some now }
  if cb1.state = CBState.HALF_OPEN then
    { cb1 with state := CBState.OPEN }
  else if cb1.failure_threshold ≤ cb1.failure_count then
    { cb1 with state := CBState.OPEN }
  else
    cb1

/-- Outcome of CircuitBreaker.call: the value on success, the fail-fast
exception raised when is_open() is true, or the re-raised exception of the
wrapped function. -/
inductive CallOutcome (E α : Type) where
  | ok (a : α)
  | circuitOpen
  | failed (e : E)
deriving Repr, DecidableEq

/-- Embeds CircuitBreaker.call.  The wrapped provider call is modelled by
its outcome f; the returned Bool records whether the wrapped function was
invoked at all, so that call counts can be reasoned about. -/
def CircuitBreaker.call {E α : Type} (cb : CircuitBreaker) (now : ℚ)
    (f : Except E α) : Option (CallOutcome E α × CircuitBreaker × Bool) :=
  match cb.is_open now with
  | none => none
  | some (true, cb1) => some (CallOutcome.circuitOpen, cb1, false)
  | some (false, cb1) =>
    match f with
    | Except.ok a => some (CallOutcome.ok a, cb1.record_success, true)
    | Except.error e => some (CallOutcome.failed e, cb1.record_failure now, true)

/-- One successful probe call through the breaker (used to iterate the
HalfOpen recovery sequence); the unreachable none branch returns the
breaker unchanged. -/
def CircuitBreaker.callSucc (cb : CircuitBreaker) (now : ℚ) : CircuitBreaker :=
  match cb.call now (Except.ok (0 : Nat) : Except Unit Nat) with
  | some r => r.2.1
  | none => cb

/-! ## Fallback handler (resilience.py, class FallbackHandler) -/

/-- Values of the Python dicts built by FallbackHandler. -/
inductive JVal where
  | str (s : String)
  | bool (b : Bool)
  | arr (xs : List JVal)
  | obj (kvs : List (String × JVal))
deriving Repr

/-- Python substring test: sub in s. -/
def strContains (s sub : String) : Bool :=
  decide (sub.data <:+: s.data)

/-- Embeds FallbackHandler._get_demo_data. -/
def getDemoData (tool_name : String) : JVal :=
  if strContains tool_name "fighter_stats" then
    JVal.obj [("name", JVal.str "Unknown Fighter"),
              ("record", JVal.str "N/A"),
              ("note", JVal.str "Fighter data unavailable")]
  else if strContains tool_name "odds" then
    JVal.obj [("odds", JVal.str "N/A"),
              ("note", JVal.str "Betting data unavailable")]
  else if strContains tool_name "news" then
    JVal.obj [("articles", JVal.arr []),
              ("note", JVal.str "News data unavailable")]
  else
    JVal.obj [("note", JVal.str "Data unavailable")]

/-- Embeds FallbackHandler.get_fallback; error is str(error) of the caught
exception. -/
def get_fallback (tool_name : String) (error : String) : JVal :=
  JVal.obj [("error", JVal.str error),
            ("fallback", JVal.bool true),
            ("tool", JVal.str tool_name),
            ("message", JVal.str ("Tool \x27" ++ tool_name ++
              "\x27 unavailable. Using fallback data.")),
            ("data", getDemoData tool_name)]

/-- Keys of an object-valued JVal, in insertion order. -/
def JVal.keys : JVal → List String
  | JVal.obj kvs => kvs.map Prod.fst
  | _ => []

/-- Field lookup in an object-valued JVal. -/
def JVal.get (v : JVal) (k : String) : Option JVal :=
  match v with
  | JVal.obj kvs => (kvs.find? (fun p => p.1 = k)).map Prod.snd
  | _ => none

/-! ## Performance monitor (observability/monitoring.py) -/

/-- Embeds class PerformanceMonitor.  tool_calls is the Python dict from
tool name to its list of durations, as an insertion-ordered association
list; errors keeps the logged error messages with their context. -/
structure PerfMonitor where
  query_count : Nat
  tool_calls : List (String × List ℚ)
  errors : List (String × List (String × String))
deriving Repr, DecidableEq

/-- A fresh PerformanceMonitor(), as produced at construction and by
reset_monitor(). -/
def PerfMonitor.init : PerfMonitor :=
  { query_count := 0, tool_calls := [], errors := [] }

/-- Embeds PerformanceMonitor.log_query. -/
def PerfMonitor.log_query (m : PerfMonitor) (_query : String) : PerfMonitor :=
  { m with query_count := m.query_count + 1 }

/-- Python dict update self.tool_calls[name].append(d), creating the key at
the end when absent. -/
def logToolCallAux : List (String × List ℚ) → String → ℚ → List (String × List ℚ)
  | [], name, d => [(name, [d])]
  | (k, ds) :: rest, name, d =>
    if k = name then (k, ds ++ [d]) :: rest
    else (k, ds) :: logToolCallAux rest name d

/-- Embeds PerformanceMonitor.log_tool_call. -/
def PerfMonitor.log_tool_call (m : PerfMonitor) (tool_name : String) (duration_ms : ℚ) :
    PerfMonitor :=
  { m with tool_calls := logToolCallAux m.tool_calls tool_name duration_ms }

/-- Embeds PerformanceMonitor.log_error. -/
def PerfMonitor.log_error (m : PerfMonitor) (error : String)
    (context : List (String × String)) : PerfMonitor :=
  { m with errors := m.errors ++ [(error, context)] }

/-- Per-tool entry of the tool_breakdown dict of get_stats. -/
structure ToolStat where
  count : Nat
  avg_ms : ℚ
  total_ms : ℚ
deriving Repr, DecidableEq

/-- The statistics dict returned by PerformanceMonitor.get_stats; the
wall-clock runtime is passed in explicitly. -/
structure Stats where
  runtime_seconds : ℚ
  total_queries : Nat
  total_tool_calls : Nat
  tool_breakdown : List (String × ToolStat)
  errors : Nat
  queries_per_minute : ℚ
deriving Repr, DecidableEq

/-- Embeds PerformanceMonitor.get_stats, with the elapsed runtime in
seconds passed as runtime. -/
def PerfMonitor.get_stats (m : PerfMonitor) (runtime : ℚ) : Stats :=
  { runtime_seconds := runtime,
    total_queries := m.query_count,
    total_tool_calls := (m.tool_calls.map (fun p => p.2.length)).sum,
    tool_breakdown := m.tool_calls.map (fun p =>
      (p.1, { count := p.2.length,
              avg_ms := if p.2 ≠ [] then p.2.sum / p.2.length else 0,
              total_ms := p.2.sum })),
    errors := m.errors.length,
    queries_per_minute := if 0 < runtime then m.query_count / runtime * 60 else 0 }

/-- One externally observable monitor operation, for reasoning about
arbitrary call sequences. -/
inductive MonEvent where
  | query (q : String)
  | toolCall (name : String) (duration_ms : ℚ)
  | err (msg : String) (context : List (String × String))
deriving Repr, DecidableEq

/-- Apply one monitor operation. -/
def PerfMonitor.step (m : PerfMonitor) : MonEvent → PerfMonitor
  | MonEvent.query q => m.log_query q
  | MonEvent.toolCall n d => m.log_tool_call n d
  | MonEvent.err e c => m.log_error e c

/-- Run a sequence of monitor operations from a fresh monitor. -/
def PerfMonitor.run (es : List MonEvent) : PerfMonitor :=
  es.foldl PerfMonitor.step PerfMonitor.init

def MonEvent.isQuery : MonEvent → Bool
  | MonEvent.query _ => true
  | _ => false

def MonEvent.isToolCall : MonEvent → Bool
  | MonEvent.toolCall _ _ => true
  | _ => false

/-! ## Tool map construction (frontend/app.py initialize_platform,
main.py demo functions) -/

/-- A tool as loaded from the MCP servers: a declared name and an
invokable implementation (kept abstract as a type parameter). -/
structure MCPTool (α : Type) where
  name : String
  impl : α
deriving Repr, DecidableEq

/-- Python dict assignment m[k] = v on an insertion-ordered association
list: an existing key keeps its position and gets the new value, a new key
is appended at the end. -/
def dictInsert {α : Type} : List (String × α) → String → α → List (String × α)
  | [], k, v => [(k, v)]
  | (k1, v1) :: rest, k, v =>
    if k1 = k then (k1, v) :: rest
    else (k1, v1) :: dictInsert rest k v

/-- Embeds the dict comprehension of app.py initialize_platform and of the
main.py demos building the aggregated registry from the loaded tools. -/
def buildToolMap {α : Type} (tools : List (MCPTool α)) : List (String × α) :=
  tools.foldl (fun m t => dictInsert m t.name t.impl) []

/-- Python dict .get(name): the value at the key, when present. -/
def lookupTool {α : Type} (m : List (String × α)) (name : String) : Option α :=
  (m.find? (fun p => p.1 = name)).map Prod.snd

/-- Modelled from the spec: the registry build the specification
describes, which fails with ConfigurationError when two providers declare
the same tool name instead of resolving the collision; used only to compare
the source build against the specified one. -/
def buildRegistrySpec {α : Type} (tools : List (MCPTool α)) :
    Except String (List (String × α)) :=
  if (tools.map MCPTool.name).Nodup then
    Except.ok (tools.map (fun t => (t.name, t.impl)))
  else
    Except.error "ConfigurationError: duplicate tool name"

/-! ## Orchestration loop (frontend/app.py process_query) -/

/-- A tool call requested by the model inside an assistant message. -/
structure ToolRequest where
  id : String
  name : String
  args : List (String × String)
deriving Repr, DecidableEq

/-- The response of one agent.ainvoke call: assistant text plus the
requested tool calls (empty when the model gives a final answer). -/
structure AssistantMsg where
  content : String
  tool_calls : List ToolRequest
deriving Repr, DecidableEq

/-- One entry of the msgs list of process_query. -/
inductive ChatMsg where
  | human (content : String)
  | assistant (m : AssistantMsg)
  | toolMsg (content : String) (tool_call_id : String)
deriving Repr, DecidableEq

/-- Python str.lower() on ASCII tool names. -/
def strLower (s : String) : String :=
  String.mk (s.data.map Char.toLower)

/-- Embeds get_server_for_tool of app.py: infer the owning server from
substrings of the tool name; Unknown when no pattern matches. -/
def get_server_for_tool (tool_name : String) : String :=
  if ["fighter", "stats", "compare", "career", "upcoming", "trajectory",
      "opponent", "title"].any (fun x => strContains tool_name x) then
    "Analytics"
  else if ["odds", "betting", "value", "predict"].any
      (fun x => strContains tool_name x) then
    "Betting"
  else if (["news", "hype", "media", "press"].any
      (fun x => strContains tool_name x))
      && !(strContains (strLower tool_name) "reddit") then
    "News"
  else if ["reddit", "posts", "buzz", "sentiment", "mentions"].any
      (fun x => strContains tool_name x) then
    "Social"
  else
    "Unknown"

/-- The implementation of a dispatchable tool: arguments to the str() of
its result. -/
def ToolImpl : Type := List (String × String) → String

/-- One entry of the per-run tool_calls trace of process_query. -/
structure ToolCallRec where
  name : String
  duration_ms : ℚ
  server : String
deriving Repr, DecidableEq

/-- The mutable state threaded through the loop of process_query: the msgs
list, the per-run tool_calls trace, and the process-wide monitor. -/
structure LoopState where
  msgs : List ChatMsg
  trace : List ToolCallRec
  monitor : PerfMonitor
deriving Repr, DecidableEq

/-- Embeds the body of the inner for-loop of process_query for one
requested tool call tc: execute the tool (or synthesize the not-found
error string), append the trace record tagged with the inferred server,
log the call on the monitor, and append the correlated ToolMessage.  The
measured wall-clock duration is supplied by dur. -/
def execToolCall (tool_map : List (String × ToolImpl)) (dur : String → ℚ)
    (st : LoopState) (tc : ToolRequest) : LoopState :=
  let result : String :=
    match lookupTool tool_map tc.name with
    | some tool => tool tc.args
    | none => "Error: Tool " ++ tc.name ++ " not found"
  let d := dur tc.name
  { msgs := st.msgs ++ [ChatMsg.toolMsg result tc.id],
    trace := st.trace ++ [{ name := tc.name, duration_ms := d,
                            server := get_server_for_tool tc.name }],
    monitor := st.monitor.log_tool_call tc.name d }

/-- The value returned by process_query (answer text, trace), together
with the final monitor, the final msgs list and the number of model
endpoint calls made, which the source keeps implicit. -/
structure RunResult where
  content : String
  trace : List ToolCallRec
  monitor : PerfMonitor
  msgs : List ChatMsg
  modelCalls : Nat
deriving Repr, DecidableEq

/-- Embeds the while-loop of process_query.  fuel is the number of
remaining iterations (max_iterations - iteration); lastContent is the
content of the most recent model response, none before the first call.
When fuel runs out the source falls through the while and returns
resp.content of the last response; none models the NameError of reading
resp when the loop body never ran (max_iterations 0). -/
def processQueryAux (model : List ChatMsg → AssistantMsg)
    (tool_map : List (String × ToolImpl)) (dur : String → ℚ) :
    Nat → LoopState → Nat → Option String → Option RunResult
  | 0, st, calls, lastContent =>
    lastContent.map (fun c =>
      { content := c, trace := st.trace, monitor := st.monitor,
        msgs := st.msgs, modelCalls := calls })
  | fuel + 1, st, calls, _ =>
    let resp := model st.msgs
    let st1 : LoopState := { st with msgs := st.msgs ++ [ChatMsg.assistant resp] }
    if resp.tool_calls = [] then
      some { content := resp.content, trace := st1.trace,
             monitor := st1.monitor, msgs := st1.msgs, modelCalls := calls + 1 }
    else
      processQueryAux model tool_map dur fuel
        (resp.tool_calls.foldl (execToolCall tool_map dur) st1)
        (calls + 1) (some resp.content)

/-- Embeds process_query of app.py: log the query on the monitor, start
from a single HumanMessage, and run the loop with max_iterations 10. -/
def process_query (model : List ChatMsg → AssistantMsg)
    (tool_map : List (String × ToolImpl)) (dur : String → ℚ)
    (query : String) (mon : PerfMonitor) : Option RunResult :=
  processQueryAux model tool_map dur 10
    { msgs := [ChatMsg.human query], trace := [], monitor := mon.log_query query }
    0 none

/-! ## Concrete inputs used to evaluate the definitions -/

/-- A breaker that tripped Open at time 100 with the default thresholds. -/
def cbOpenEx : CircuitBreaker :=
  { failure_threshold := 5, recovery_timeout := 60, success_threshold := 2,
    failure_count := 5, success_count := 0, last_failure_time := some 100,
    state := CBState.OPEN }

/-- A breaker probing recovery: HalfOpen with no successes yet. -/
def cbHalfEx : CircuitBreaker :=
  { failure_threshold := 5, recovery_timeout := 60, success_threshold := 2,
    failure_count := 0, success_count := 0, last_failure_time := some 100,
    state := CBState.HALF_OPEN }

/-- A Closed breaker one failure short of the default threshold. -/
def cbClosedEx : CircuitBreaker :=
  { failure_threshold := 5, recovery_timeout := 60, success_threshold := 2,
    failure_count := 4, success_count := 0, last_failure_time := some 100,
    state := CBState.CLOSED }

/-- A wrapped call that fails on attempts 1 and 2 and succeeds on 3. -/
def fThirdTry : Nat → Except String Nat :=
  fun i => if i = 3 then Except.ok 42 else Except.error "boom"

/-- A wrapped call that fails on every attempt. -/
def fAlwaysFails : Nat → Except String Nat :=
  fun _ => Except.error "down"

/-- A retry configuration whose initial delay exceeds the cap. -/
def cfgBigInitial : RetryConfig :=
  { max_attempts := 2, initial_delay := 50, backoff_factor := 2, max_delay := 30 }

/-- A model endpoint that requests a tool on every call and never gives a
final answer. -/
def modelAlwaysTools : List ChatMsg → AssistantMsg :=
  fun _ => { content := "still working",
             tool_calls := [{ id := "call_1", name := "get_fighter_stats",
                              args := [("name", "Tyson Fury")] }] }

/-- A model endpoint that requests one nonexistent tool on its first call
and answers on its second. -/
def modelUnknownOnce : List ChatMsg → AssistantMsg :=
  fun msgs =>
    if msgs.length = 1 then
      { content := "checking",
        tool_calls := [{ id := "id1", name := "mystery_tool", args := [] }] }
    else
      { content := "final answer", tool_calls := [] }

/-- An empty registry. -/
def tmEmpty : List (String × ToolImpl) := []

/-- A constant measured duration of 5ms per tool call. -/
def dur5 : String → ℚ := fun _ => 5

/-- Two tools from different providers declaring the same name, with the
implementations tagged 1 and 2. -/
def tShared1 : MCPTool Nat := { name := "shared_tool", impl := 1 }

def tShared2 : MCPTool Nat := { name := "shared_tool", impl := 2 }

/-- A loop state as at the start of a run for query q. -/
def stEx : LoopState :=
  { msgs := [ChatMsg.human "q"], trace := [],
    monitor := PerfMonitor.init.log_query "q" }

/-- A request for a tool name no registry entry and no server pattern
matches. -/
def tcMystery : ToolRequest := { id := "id1", name := "mystery_tool", args := [] }

/-! ## Theorems -/

/-- Helper: the breaker that call returns when failing fast is the input
breaker itself (no mutation happens on the fail-fast path). -/
lemma is_open_of_open_early {cb : CircuitBreaker} {now t : ℚ}
    (hOpen : cb.state = CBState.OPEN)
    (hT : cb.last_failure_time = some t)
    (hEarly : now - t < cb.recovery_timeout) :
    cb.is_open now = some (true, cb) := by
  unfold CircuitBreaker.is_open
  rw [hOpen, hT]
  simp [not_le.mpr hEarly]

/-- C2: whenever the breaker is Open and fewer than recovery_timeout
seconds have elapsed since the last recorded failure, call fails
immediately with the circuit-open error, the wrapped function is not
invoked (the invoked flag is false), and the breaker state is unchanged. -/
theorem circuitOpen_failsFast {E α : Type} (cb : CircuitBreaker) (now t : ℚ)
    (f : Except E α)
    (hOpen : cb.state = CBState.OPEN)
    (hT : cb.last_failure_time = some t)
    (hEarly : now - t < cb.recovery_timeout) :
    cb.call now f = some (CallOutcome.circuitOpen, cb, false) := by
  unfold CircuitBreaker.call
  rw [is_open_of_open_early hOpen hT hEarly]

/-- C2 witness: the breaker cbOpenEx tripped at time 100 with a 60s
recovery timeout fails fast at time 120 without invoking the wrapped call. -/
theorem circuitOpen_failsFast_witness :
    cbOpenEx.call 120 (Except.ok 7 : Except String Nat)
      = some (CallOutcome.circuitOpen, cbOpenEx, false) :=
  circuitOpen_failsFast cbOpenEx 120 100 (Except.ok 7) rfl rfl
    (by norm_num [cbOpenEx])

/-- C5: from Closed, record_failure moves the breaker to Open exactly when
the incremented consecutive failure count reaches failure_threshold, and a
success while Closed resets failure_count to 0 and keeps the breaker
Closed; the constructor default threshold is 5. -/
theorem circuit_closed_to_open (cb : CircuitBreaker) (now : ℚ)
    (hClosed : cb.state = CBState.CLOSED) :
    (((cb.record_failure now).state = CBState.OPEN) ↔
        cb.failure_threshold ≤ cb.failure_count + 1)
    ∧ (cb.record_failure now).failure_count = cb.failure_count + 1
    ∧ cb.record_success.failure_count = 0
    ∧ cb.record_success.state = CBState.CLOSED
    ∧ CircuitBreaker.init.failure_threshold = 5 := by
  by_cases h : cb.failure_threshold ≤ cb.failure_count + 1 <;>
    simp [CircuitBreaker.record_failure, CircuitBreaker.record_success,
      CircuitBreaker.init, hClosed, h]

/-- C5 witness: a Closed breaker with 4 consecutive failures and threshold
5 trips Open on the next failure, and a success resets its count. -/
theorem circuit_closed_to_open_witness :
    (((cbClosedEx.record_failure 130).state = CBState.OPEN) ↔
        cbClosedEx.failure_threshold ≤ cbClosedEx.failure_count + 1)
    ∧ (cbClosedEx.record_failure 130).failure_count = cbClosedEx.failure_count + 1
    ∧ cbClosedEx.record_success.failure_count = 0
    ∧ cbClosedEx.record_success.state = CBState.CLOSED
    ∧ CircuitBreaker.init.failure_threshold = 5 :=
  circuit_closed_to_open cbClosedEx 130 rfl

/-- Helper: a probe call that succeeds, made while HalfOpen, is exactly
record_success. -/
lemma callSucc_halfOpen (cb : CircuitBreaker) (now : ℚ)
    (h : cb.state = CBState.HALF_OPEN) :
    cb.callSucc now = cb.record_success := by
  simp [CircuitBreaker.callSucc, CircuitBreaker.call, CircuitBreaker.is_open, h]

/-- Helper: from HalfOpen, k consecutive successful probe calls close the
breaker as soon as the success count reaches the threshold. -/
lemma halfOpen_probe_recovers (now : ℚ) :
    ∀ (k : ℕ) (cb : CircuitBreaker), cb.state = CBState.HALF_OPEN →
      cb.success_count + k = cb.success_threshold → 1 ≤ k →
      ((fun b => CircuitBreaker.callSucc b now)^[k] cb).state = CBState.CLOSED := by
  intro k
  induction k with
  | zero =>
    intro cb _ _ hk
    exact absurd hk (by norm_num)
  | succ k ih =>
    intro cb hst hsum _
    rw [Function.iterate_succ_apply]
    rcases Nat.eq_zero_or_pos k with hk0 | hkpos
    · subst hk0
      simp only [Function.iterate_zero_apply]
      rw [callSucc_halfOpen cb now hst]
      simp [CircuitBreaker.record_success, hst,
        show cb.success_threshold ≤ cb.success_count + 1 by omega]
    · have hlt : ¬ cb.success_threshold ≤ cb.success_count + 1 := by omega
      apply ih
      · rw [callSucc_halfOpen cb now hst]
        simp [CircuitBreaker.record_success, hst, hlt]
      · rw [callSucc_halfOpen cb now hst]
        simp [CircuitBreaker.record_success, hst, hlt]
        omega
      · exact hkpos

/-- C4: (i) the first call attempted at least recovery_timeout seconds
after the last recorded failure flips an Open breaker to HalfOpen via the
lazy check in is_open and is allowed through to the wrapped function;
(ii) from HalfOpen with a fresh success count, success_threshold
consecutive successful probe calls close the breaker; (iii) any failure
while HalfOpen reopens it; the constructor defaults are a 60s recovery
timeout and a success threshold of 2. -/
theorem circuit_recovery_transitions :
    (∀ (cb : CircuitBreaker) (now t : ℚ) (f : Except String Nat),
        cb.state = CBState.OPEN → cb.last_failure_time = some t →
        cb.recovery_timeout ≤ now - t →
        cb.is_open now
          = some (false, { cb with state := CBState.HALF_OPEN, success_count := 0 })
        ∧ (cb.call now f).map (fun r => r.2.2) = some true)
    ∧ (∀ (cb : CircuitBreaker) (now : ℚ),
        cb.state = CBState.HALF_OPEN → cb.success_count = 0 →
        1 ≤ cb.success_threshold →
        ((fun b => CircuitBreaker.callSucc b now)^[cb.success_threshold] cb).state
          = CBState.CLOSED)
    ∧ (∀ (cb : CircuitBreaker) (now : ℚ) (e : String),
        cb.state = CBState.HALF_OPEN →
        (cb.call now (Except.error e : Except String Nat)).map
            (fun r => (r.1, r.2.1.state, r.2.2))
          = some (CallOutcome.failed e, CBState.OPEN, true))
    ∧ CircuitBreaker.init.recovery_timeout = 60
    ∧ CircuitBreaker.init.success_threshold = 2 := by
  refine ⟨?_, ?_, ?_, rfl, rfl⟩
  · intro cb now t f hOpen hT hLate
    have hio : cb.is_open now
        = some (false, { cb with state := CBState.HALF_OPEN, success_count := 0 }) := by
      unfold CircuitBreaker.is_open
      rw [hOpen, hT]
      simp [hLate]
    refine ⟨hio, ?_⟩
    unfold CircuitBreaker.call
    rw [hio]
    cases f <;> simp
  · intro cb now hst hcount hthr
    exact halfOpen_probe_recovers now cb.success_threshold cb hst (by omega) hthr
  · intro cb now e hst
    simp [CircuitBreaker.call, CircuitBreaker.is_open,
      CircuitBreaker.record_failure, hst]

/-- C4 witness: the tripped breaker cbOpenEx probes again at time 200
(100s after its last failure, past the 60s timeout) and is let through as
HalfOpen; from cbHalfEx two successful probes close the breaker; one
failing probe from cbHalfEx reopens it. -/
theorem circuit_recovery_transitions_witness :
    (cbOpenEx.is_open 200
        = some (false, { cbOpenEx with state := CBState.HALF_OPEN, success_count := 0 })
      ∧ (cbOpenEx.call 200 (Except.ok 7 : Except String Nat)).map (fun r => r.2.2)
        = some true)
    ∧ ((fun b => CircuitBreaker.callSucc b 210)^[cbHalfEx.success_threshold] cbHalfEx).state
        = CBState.CLOSED
    ∧ (cbHalfEx.call 210 (Except.error "down" : Except String Nat)).map
        (fun r => (r.1, r.2.1.state, r.2.2))
      = some (CallOutcome.failed "down", CBState.OPEN, true) :=
  ⟨circuit_recovery_transitions.1 cbOpenEx 200 100 (Except.ok 7) rfl rfl
      (by norm_num [cbOpenEx]),
   circuit_recovery_transitions.2.1 cbHalfEx 210 rfl rfl (by norm_num [cbHalfEx]),
   circuit_recovery_transitions.2.2.1 cbHalfEx 210 "down" rfl⟩

/-- Helper: appending one duration to the tool_calls dict grows the total
number of recorded durations by exactly one. -/
lemma logToolCallAux_sum (l : List (String × List ℚ)) (name : String) (d : ℚ) :
    ((logToolCallAux l name d).map (fun p => p.2.length)).sum
      = (l.map (fun p => p.2.length)).sum + 1 := by
  induction l with
  | nil => simp [logToolCallAux]
  | cons hd tl ih =>
    by_cases h : hd.1 = name
    · cases hd
      simp_all [logToolCallAux]
      omega
    · cases hd
      simp_all [logToolCallAux]
      omega

/-- Helper: effect of an arbitrary operation sequence on the query counter
and on the total number of recorded tool-call durations. -/
lemma monitor_run_counts (es : List MonEvent) : ∀ m : PerfMonitor,
    (es.foldl PerfMonitor.step m).query_count
        = m.query_count + es.countP (fun e => e.isQuery)
    ∧ ((es.foldl PerfMonitor.step m).tool_calls.map (fun p => p.2.length)).sum
        = (m.tool_calls.map (fun p => p.2.length)).sum
          + es.countP (fun e => e.isToolCall) := by
  induction es with
  | nil => simp
  | cons e tl ih =>
    intro m
    cases e <;>
      simp [List.countP_cons, PerfMonitor.step, PerfMonitor.log_query,
        PerfMonitor.log_tool_call, PerfMonitor.log_error, ih,
        logToolCallAux_sum, MonEvent.isQuery, MonEvent.isToolCall] <;>
      omega

/-- C9: after any operation sequence with N log_query calls and M
log_tool_call calls on a fresh (or freshly reset) monitor, get_stats
reports total_queries N and total_tool_calls M, and the per-tool breakdown
counts sum to M across all tool names. -/
theorem monitor_stats_counts (es : List MonEvent) (runtime : ℚ) :
    ((PerfMonitor.run es).get_stats runtime).total_queries
        = es.countP (fun e => e.isQuery)
    ∧ ((PerfMonitor.run es).get_stats runtime).total_tool_calls
        = es.countP (fun e => e.isToolCall)
    ∧ (((PerfMonitor.run es).get_stats runtime).tool_breakdown.map
          (fun p => p.2.count)).sum
        = es.countP (fun e => e.isToolCall) := by
  have h := monitor_run_counts es PerfMonitor.init
  have hb : (((PerfMonitor.run es).get_stats runtime).tool_breakdown.map
        (fun p => p.2.count)).sum
      = (((PerfMonitor.run es).tool_calls).map (fun p => p.2.length)).sum := by
    simp [PerfMonitor.get_stats, List.map_map]
    rfl
  refine ⟨?_, ?_, ?_⟩
  · simpa [PerfMonitor.run, PerfMonitor.get_stats, PerfMonitor.init] using h.1
  · simpa [PerfMonitor.run, PerfMonitor.get_stats, PerfMonitor.init] using h.2
  · rw [hb]
    simpa [PerfMonitor.run, PerfMonitor.init] using h.2

/-- Helper: when the wrapped function fails on each of the k attempts
before the last one, the retry loop returns the outcome of the last
attempt together with the accumulated sleep of the k failed attempts. -/
lemma retryAux_run {E α : Type} (f : Nat → Except E α) (factor maxDelay : ℚ) :
    ∀ (k a : ℕ) (d : ℚ),
      (∀ i, a ≤ i → i < a + k → ∃ e, f i = Except.error e) →
      retryAux f factor maxDelay (k + 1) a d
        = some (f (a + k), sleptFrom factor maxDelay d k) := by
  intro k
  induction k with
  | zero =>
    intro a d _
    unfold retryAux
    cases hf : f a <;> simp [hf, sleptFrom]
  | succ k ih =>
    intro a d hfail
    obtain ⟨e, he⟩ := hfail a (le_refl a) (by omega)
    have hrec := ih (a + 1) (min (d * factor) maxDelay)
      (fun i hi1 hi2 => hfail i (by omega) (by omega))
    unfold retryAux
    rw [he]
    simp only [Nat.succ_ne_zero, if_false, hrec]
    have : a + 1 + k = a + (k + 1) := by omega
    rw [this, sleptFrom]

/-- Helper: when the starting delay is below the cap and the factor is at
least 1, the sleep sequence of the source loop coincides term by term with
the capped geometric series. -/
lemma sleptFrom_capped (factor maxDelay : ℚ) (hf : 1 ≤ factor) :
    ∀ (k : ℕ) (d : ℚ), d ≤ maxDelay →
      sleptFrom factor maxDelay d k
        = ∑ j ∈ Finset.range k, min (d * factor ^ j) maxDelay := by
  intro k
  induction k with
  | zero => intro d _; simp [sleptFrom]
  | succ k ih =>
    intro d hd
    have hterm : ∀ j, min (min (d * factor) maxDelay * factor ^ j) maxDelay
        = min (d * factor ^ (j + 1)) maxDelay := by
      intro j
      have hpw : (1 : ℚ) ≤ factor ^ j := one_le_pow₀ hf
      rcases le_or_lt (d * factor) maxDelay with h | h
      · rw [min_eq_left h, pow_succ]
        ring_nf
      · have hd0 : 0 < d := by nlinarith
        have hM0 : 0 < maxDelay := lt_of_lt_of_le hd0 hd
        rw [min_eq_right h.le]
        have h1 : maxDelay ≤ maxDelay * factor ^ j := by nlinarith
        have h2 : maxDelay ≤ d * factor ^ (j + 1) := by
          have : d * factor ^ (j + 1) = (d * factor) * factor ^ j := by ring
          nlinarith
        rw [min_eq_right h1, min_eq_right h2]
    rw [sleptFrom, ih (min (d * factor) maxDelay) (min_le_right _ _),
      Finset.sum_range_succ']
    rw [Finset.sum_congr rfl (fun j _ => hterm j)]
    have h0 : min (d * factor ^ 0) maxDelay = d := by
      rw [pow_zero, mul_one, min_eq_left hd]
    rw [h0]
    ring

/-- C3 (amended): for a wrapped function failing on attempts 1 through
max_attempts - 1, retry_with_backoff returns the outcome of the final
attempt — the success value if it succeeds, the propagated last exception
if it fails — and, provided initial_delay does not exceed max_delay and
backoff_factor is at least 1, the total time slept equals the geometric
backoff series with every term capped at max_delay; the source defaults
are 3 attempts, 1.0s initial delay, factor 2.0 and cap 30s.  Without the
proviso the first sleep is initial_delay itself, uncapped, as the
counterexample shows. -/
theorem retry_backoff_amended {E α : Type} (cfg : RetryConfig) (f : Nat → Except E α)
    (h1 : 1 ≤ cfg.max_attempts)
    (h2 : cfg.initial_delay ≤ cfg.max_delay)
    (h3 : 1 ≤ cfg.backoff_factor)
    (hfail : ∀ i, 1 ≤ i → i < cfg.max_attempts → ∃ e, f i = Except.error e) :
    retry_with_backoff f cfg = some (f cfg.max_attempts, cappedBackoffSum cfg)
    ∧ RetryConfig.default
      = { max_attempts := 3, initial_delay := 1, backoff_factor := 2,
          max_delay := 30 } := by
  refine ⟨?_, rfl⟩
  have hk : cfg.max_attempts = (cfg.max_attempts - 1) + 1 := by omega
  have hone : 1 + (cfg.max_attempts - 1) = cfg.max_attempts := by omega
  unfold retry_with_backoff
  conv_lhs => rw [hk]
  rw [retryAux_run f cfg.backoff_factor cfg.max_delay (cfg.max_attempts - 1) 1
    cfg.initial_delay (fun i hi1 hi2 => hfail i hi1 (by omega))]
  rw [sleptFrom_capped cfg.backoff_factor cfg.max_delay h3 (cfg.max_attempts - 1)
    cfg.initial_delay h2]
  rw [hone]
  rfl

/-- C3 witness: with the default configuration, a call failing on attempts
1 and 2 and succeeding on attempt 3 returns the success value 42 after a
total sleep of 1 + 2 = 3 seconds. -/
theorem retry_backoff_amended_witness :
    retry_with_backoff fThirdTry RetryConfig.default = some (Except.ok 42, 3) := by
  have h := (retry_backoff_amended RetryConfig.default fThirdTry
    (by norm_num [RetryConfig.default]) (by norm_num [RetryConfig.default])
    (by norm_num [RetryConfig.default])
    (by
      intro i hi1 hi2
      refine ⟨"boom", ?_⟩
      simp only [RetryConfig.default] at hi2
      interval_cases i <;> rfl)).1
  rw [h]
  norm_num [RetryConfig.default, cappedBackoffSum, fThirdTry,
    Finset.sum_range_succ]

/-- C3 counterexample: when initial_delay (50) exceeds max_delay (30) with
max_attempts 2, the single sleep performed by the source is the uncapped
50 seconds, while the claimed capped geometric series sums to 30: the
claim that every sleep is capped at max_delay fails on the first sleep. -/
theorem retry_firstSleep_uncapped_cex :
    retry_with_backoff fAlwaysFails cfgBigInitial
      = some (Except.error "down", 50)
    ∧ cappedBackoffSum cfgBigInitial = 30
    ∧ (50 : ℚ) ≠ 30 := by
  refine ⟨?_, ?_, by norm_num⟩
  · have h := retryAux_run fAlwaysFails 2 30 1 1 50
      (fun i hi1 hi2 => ⟨"down", rfl⟩)
    have hs : sleptFrom 2 30 50 1 = 50 := by
      show 50 + sleptFrom 2 30 (min (50 * 2) 30) 0 = 50
      norm_num [sleptFrom]
    show retryAux fAlwaysFails 2 30 2 1 50 = some (Except.error "down", 50)
    exact h.trans (by rw [hs]; rfl)
  · norm_num [cappedBackoffSum, cfgBigInitial, Finset.sum_range_one]

/-- C8 counterexample: the degraded response dict built by
FallbackHandler.get_fallback keys its flag as fallback and its tool-name
field as tool; the field names fallbackUsed and toolName claimed by the
spec do not occur among its keys. -/
theorem fallback_field_names_cex :
    (get_fallback "x" "boom").keys
        = ["error", "fallback", "tool", "message", "data"]
    ∧ "fallbackUsed" ∉ (get_fallback "x" "boom").keys
    ∧ "toolName" ∉ (get_fallback "x" "boom").keys := by
  refine ⟨rfl, ?_, ?_⟩ <;> decide

/-- C8 (amended): for every tool name and error, get_fallback returns —
it cannot raise — a structured degraded response with exactly the five
fields error, fallback (set to true), tool, message and data, in that
order, where data is the category-specific placeholder of _get_demo_data:
the fighter-stats record when the name contains fighter_stats, the odds
record when it contains odds, the news record when it contains news, and
a generic Data-unavailable record otherwise. -/
theorem fallback_shape_amended (tool_name error : String) :
    (get_fallback tool_name error).keys
        = ["error", "fallback", "tool", "message", "data"]
    ∧ (get_fallback tool_name error).get "fallback" = some (JVal.bool true)
    ∧ (get_fallback tool_name error).get "error" = some (JVal.str error)
    ∧ (get_fallback tool_name error).get "tool" = some (JVal.str tool_name)
    ∧ (get_fallback tool_name error).get "data" = some (getDemoData tool_name)
    ∧ (strContains tool_name "fighter_stats" = true →
        getDemoData tool_name
          = JVal.obj [("name", JVal.str "Unknown Fighter"),
                      ("record", JVal.str "N/A"),
                      ("note", JVal.str "Fighter data unavailable")])
    ∧ (strContains tool_name "fighter_stats" = false →
        strContains tool_name "odds" = true →
        getDemoData tool_name
          = JVal.obj [("odds", JVal.str "N/A"),
                      ("note", JVal.str "Betting data unavailable")])
    ∧ (strContains tool_name "fighter_stats" = false →
        strContains tool_name "odds" = false →
        strContains tool_name "news" = true →
        getDemoData tool_name
          = JVal.obj [("articles", JVal.arr []),
                      ("note", JVal.str "News data unavailable")])
    ∧ (strContains tool_name "fighter_stats" = false →
        strContains tool_name "odds" = false →
        strContains tool_name "news" = false →
        getDemoData tool_name
          = JVal.obj [("note", JVal.str "Data unavailable")]) := by
  refine ⟨rfl, rfl, rfl, rfl, rfl, ?_, ?_, ?_, ?_⟩
  · intro h
    simp [getDemoData, h]
  · intro h1 h2
    simp [getDemoData, h1, h2]
  · intro h1 h2 h3
    simp [getDemoData, h1, h2, h3]
  · intro h1 h2 h3
    simp [getDemoData, h1, h2, h3]

/-- C8 witness: the degraded response for tool get_fighter_stats carries
the five fields in order and the fighter-stats placeholder data. -/
theorem fallback_shape_amended_witness :
    (get_fallback "get_fighter_stats" "boom").keys
        = ["error", "fallback", "tool", "message", "data"]
    ∧ getDemoData "get_fighter_stats"
        = JVal.obj [("name", JVal.str "Unknown Fighter"),
                    ("record", JVal.str "N/A"),
                    ("note", JVal.str "Fighter data unavailable")] :=
  ⟨(fallback_shape_amended "get_fighter_stats" "boom").1,
   (fallback_shape_amended "get_fighter_stats" "boom").2.2.2.2.2.1 (by decide)⟩

/-- Helper: looking a name up after a dict assignment sees the new value at
that key and is unchanged elsewhere. -/
lemma lookupTool_dictInsert {α : Type} (m : List (String × α)) (k : String)
    (v : α) (name : String) :
    lookupTool (dictInsert m k v) name
      = if name = k then some v else lookupTool m name := by
  induction m with
  | nil =>
    by_cases h : name = k
    · subst h
      simp [dictInsert, lookupTool, List.find?]
    · simp [dictInsert, lookupTool, List.find?,
        decide_eq_false (fun hh => h (Eq.symm hh)), h]
  | cons hd tl ih =>
    obtain ⟨k1, v1⟩ := hd
    by_cases h1 : k1 = k
    · subst h1
      by_cases h2 : name = k1
      · subst h2
        simp [dictInsert, lookupTool, List.find?]
      · simp [dictInsert, lookupTool, List.find?,
          decide_eq_false (fun hh => h2 (Eq.symm hh)), h2]
    · by_cases h2 : name = k1
      · subst h2
        simp [dictInsert, lookupTool, List.find?, h1,
          if_neg (fun hh => h1 (Eq.symm hh))]
      · simp only [dictInsert, if_neg h1, lookupTool, List.find?,
          decide_eq_false (fun hh => h2 (Eq.symm hh))] at ih ⊢
        exact ih

/-- Helper: the dict comprehension processes a trailing tool last. -/
lemma buildToolMap_snoc {α : Type} (tools : List (MCPTool α)) (t : MCPTool α) :
    buildToolMap (tools ++ [t]) = dictInsert (buildToolMap tools) t.name t.impl := by
  simp [buildToolMap, List.foldl_append]

/-- Helper: the aggregated dict maps each name to the implementation of
the last tool in registration order declaring that name. -/
lemma lookup_buildToolMap {α : Type} (tools : List (MCPTool α)) (name : String) :
    lookupTool (buildToolMap tools) name
      = (tools.reverse.find? (fun t => t.name = name)).map MCPTool.impl := by
  induction tools using List.reverseRecOn with
  | nil => simp [buildToolMap, lookupTool]
  | append_singleton l t ih =>
    rw [buildToolMap_snoc, lookupTool_dictInsert, List.reverse_append]
    by_cases h : name = t.name
    · subst h
      simp [List.find?]
    · simp [List.find?, h, decide_eq_false (fun hh => h (Eq.symm hh)), ih]

/-- Helper: when names are pairwise distinct, find? locates each tool. -/
lemma find?_name_unique {α : Type} :
    ∀ (l : List (MCPTool α)) (t : MCPTool α), t ∈ l →
      (l.map MCPTool.name).Nodup →
      l.find? (fun u => u.name = t.name) = some t := by
  intro l
  induction l with
  | nil => intro t hmem; cases hmem
  | cons hd tl ih =>
    intro t hmem hnd
    rcases List.mem_cons.mp hmem with rfl | hmem
    · simp [List.find?]
    · have hne : ¬ (hd.name = t.name) := by
        intro he
        have : t.name ∈ tl.map MCPTool.name := List.mem_map_of_mem _ hmem
        rw [← he] at this
        exact (List.nodup_cons.mp (by simpa using hnd)).1 this
      have htl : (tl.map MCPTool.name).Nodup :=
        (List.nodup_cons.mp (by simpa using hnd)).2
      simp [List.find?, hne, ih t hmem htl]

/-- C6 counterexample: two providers both declaring shared_tool do not
make the build fail — the dict comprehension silently keeps the later
implementation (2) — whereas the registry build described by the spec
rejects the same input with a ConfigurationError. -/
theorem build_collision_lastWins_cex :
    buildToolMap [tShared1, tShared2] = [("shared_tool", 2)]
    ∧ lookupTool (buildToolMap [tShared1, tShared2]) "shared_tool" = some 2
    ∧ buildRegistrySpec [tShared1, tShared2]
        = Except.error "ConfigurationError: duplicate tool name" := by
  refine ⟨rfl, rfl, ?_⟩
  unfold buildRegistrySpec
  rw [if_neg (by decide)]

/-- C6 (amended): building the aggregated tool map never fails; a name
declared by several tools is silently resolved to the implementation of
the last one in registration order, and when all declared names are
pairwise distinct the map sends each name to its unique implementation. -/
theorem build_toolMap_amended {α : Type} :
    (∀ (tools : List (MCPTool α)) (name : String),
        lookupTool (buildToolMap tools) name
          = (tools.reverse.find? (fun t => t.name = name)).map MCPTool.impl)
    ∧ (∀ tools : List (MCPTool α), (tools.map MCPTool.name).Nodup →
        ∀ t ∈ tools, lookupTool (buildToolMap tools) t.name = some t.impl) := by
  refine ⟨lookup_buildToolMap, ?_⟩
  intro tools hnd t hmem
  rw [lookup_buildToolMap, find?_name_unique tools.reverse t
    (List.mem_reverse.mpr hmem)
    (by rw [List.map_reverse]; exact List.nodup_reverse.mpr hnd)]
  rfl

/-- C6 witness: on a two-provider registry with distinct names a and b,
the build maps a to implementation 1, and on the shared_tool collision it
maps the name to the later implementation 2. -/
theorem build_toolMap_amended_witness :
    lookupTool (buildToolMap
        [({ name := "a", impl := 1 } : MCPTool Nat), { name := "b", impl := 2 }]) "a"
      = some 1
    ∧ lookupTool (buildToolMap [tShared1, tShared2]) "shared_tool"
      = (([tShared1, tShared2].reverse.find? (fun t => t.name = "shared_tool")).map
          MCPTool.impl) :=
  ⟨build_toolMap_amended.2
      [({ name := "a", impl := 1 } : MCPTool Nat), { name := "b", impl := 2 }]
      (by decide) { name := "a", impl := 1 } (by simp),
   build_toolMap_amended.1 [tShared1, tShared2] "shared_tool"⟩

/-- Helper: once at least one model response has been recorded, the loop
always produces a result (the only crash, reading resp before the first
iteration, needs max_iterations 0). -/
lemma processQueryAux_isSome (model : List ChatMsg → AssistantMsg)
    (tm : List (String × ToolImpl)) (dur : String → ℚ) :
    ∀ (fuel : ℕ) (st : LoopState) (calls : ℕ) (c : String),
      (processQueryAux model tm dur fuel st calls (some c)).isSome = true := by
  intro fuel
  induction fuel with
  | zero => intro st calls c; rfl
  | succ fuel ih =>
    intro st calls c
    by_cases h : (model st.msgs).tool_calls = [] <;>
      simp [processQueryAux, h, ih]

/-- Helper: any iteration of the loop leaves behind a result: either the
branch with no tool calls answers, or the recursion continues with the
response content recorded. -/
lemma processQueryAux_succ_isSome (model : List ChatMsg → AssistantMsg)
    (tm : List (String × ToolImpl)) (dur : String → ℚ) (fuel : ℕ)
    (st : LoopState) (calls : ℕ) (last : Option String) :
    (processQueryAux model tm dur (fuel + 1) st calls last).isSome = true := by
  by_cases h : (model st.msgs).tool_calls = [] <;>
    simp [processQueryAux, h, processQueryAux_isSome]

/-- C7: the run never crashes, whatever tools the model requests; a
request for a name absent from the registry is answered inline by a
ToolResult whose payload is the not-found error string, correlated with
the request id; and an iteration whose response carries tool requests
always continues into the next loop iteration. -/
theorem unknown_tool_recovered :
    (∀ (model : List ChatMsg → AssistantMsg) (tm : List (String × ToolImpl))
        (dur : String → ℚ) (q : String) (mon : PerfMonitor),
        (process_query model tm dur q mon).isSome = true)
    ∧ (∀ (tm : List (String × ToolImpl)) (dur : String → ℚ)
        (st : LoopState) (tc : ToolRequest),
        lookupTool tm tc.name = none →
        (execToolCall tm dur st tc).msgs
          = st.msgs
            ++ [ChatMsg.toolMsg ("Error: Tool " ++ tc.name ++ " not found") tc.id])
    ∧ (∀ (model : List ChatMsg → AssistantMsg) (tm : List (String × ToolImpl))
        (dur : String → ℚ) (fuel : ℕ) (st : LoopState) (calls : ℕ)
        (last : Option String),
        (model st.msgs).tool_calls ≠ [] →
        processQueryAux model tm dur (fuel + 1) st calls last
          = processQueryAux model tm dur fuel
              ((model st.msgs).tool_calls.foldl (execToolCall tm dur)
                { st with msgs := st.msgs ++ [ChatMsg.assistant (model st.msgs)] })
              (calls + 1) (some (model st.msgs).content)) := by
  refine ⟨?_, ?_, ?_⟩
  · intro model tm dur q mon
    exact processQueryAux_succ_isSome model tm dur 9
      { msgs := [ChatMsg.human q], trace := [],
        monitor := mon.log_query q } 0 none
  · intro tm dur st tc h
    simp [execToolCall, h]
  · intro model tm dur fuel st calls last h
    simp [processQueryAux, h]

/-- C7 witness: with an empty registry, the model request for
mystery_tool is answered by the not-found ToolResult correlated with id1,
the run still returns a result, and the first iteration continues into
the second. -/
theorem unknown_tool_recovered_witness :
    (process_query modelUnknownOnce tmEmpty dur5 "q" PerfMonitor.init).isSome = true
    ∧ (execToolCall tmEmpty dur5 stEx tcMystery).msgs
        = stEx.msgs
          ++ [ChatMsg.toolMsg ("Error: Tool " ++ tcMystery.name ++ " not found")
                tcMystery.id]
    ∧ processQueryAux modelUnknownOnce tmEmpty dur5 (3 + 1) stEx 0 none
        = processQueryAux modelUnknownOnce tmEmpty dur5 3
            ((modelUnknownOnce stEx.msgs).tool_calls.foldl (execToolCall tmEmpty dur5)
              { stEx with
                  msgs := stEx.msgs ++ [ChatMsg.assistant (modelUnknownOnce stEx.msgs)] })
            1 (some (modelUnknownOnce stEx.msgs).content) :=
  ⟨unknown_tool_recovered.1 modelUnknownOnce tmEmpty dur5 "q" PerfMonitor.init,
   unknown_tool_recovered.2.1 tmEmpty dur5 stEx tcMystery rfl,
   unknown_tool_recovered.2.2 modelUnknownOnce tmEmpty dur5 3 stEx 0 none
     (by decide)⟩

/-- Helper: the loop makes at most fuel further model calls. -/
lemma processQueryAux_calls_le (model : List ChatMsg → AssistantMsg)
    (tm : List (String × ToolImpl)) (dur : String → ℚ) :
    ∀ (fuel : ℕ) (st : LoopState) (calls : ℕ) (last : Option String)
      (r : RunResult),
      processQueryAux model tm dur fuel st calls last = some r →
      r.modelCalls ≤ calls + fuel := by
  intro fuel
  induction fuel with
  | zero =>
    intro st calls last r h
    cases last with
    | none => simp [processQueryAux] at h
    | some c =>
      simp only [processQueryAux, Option.map_some', Option.some.injEq] at h
      subst h
      simp
  | succ fuel ih =>
    intro st calls last r h
    by_cases hc : (model st.msgs).tool_calls = []
    · simp only [processQueryAux, if_pos hc, Option.some.injEq] at h
      subst h
      show calls + 1 ≤ calls + (fuel + 1)
      omega
    · simp only [processQueryAux, if_neg hc] at h
      have := ih _ _ _ _ h
      omega

/-- Helper: under a model that always requests tools, the loop consumes
all its fuel, making one model call per remaining iteration, and still
returns a normal result built from the last response content. -/
lemma processQueryAux_always_tools (model : List ChatMsg → AssistantMsg)
    (tm : List (String × ToolImpl)) (dur : String → ℚ)
    (h : ∀ msgs, (model msgs).tool_calls ≠ []) :
    ∀ (fuel : ℕ) (st : LoopState) (calls : ℕ) (c : String),
      ∃ r, processQueryAux model tm dur fuel st calls (some c) = some r
        ∧ r.modelCalls = calls + fuel := by
  intro fuel
  induction fuel with
  | zero =>
    intro st calls c
    exact ⟨_, rfl, rfl⟩
  | succ fuel ih =>
    intro st calls c
    obtain ⟨r, hr, hcalls⟩ := ih
      ((model st.msgs).tool_calls.foldl (execToolCall tm dur)
        { st with msgs := st.msgs ++ [ChatMsg.assistant (model st.msgs)] })
      (calls + 1) (model st.msgs).content
    refine ⟨r, ?_, by omega⟩
    simp only [processQueryAux, if_neg (h st.msgs)]
    exact hr

/-- C1 counterexample: with a model endpoint that requests a tool on all
of the 10 iterations, process_query returns a normal result — the content
of the tenth assistant message — after exactly 10 model calls and 10 trace
records; no IterationBudgetExceeded error exists anywhere in its result
type, so the exhausted budget is indistinguishable from a normal answer. -/
theorem iterationBudget_no_error_cex :
    (process_query modelAlwaysTools tmEmpty dur5 "q" PerfMonitor.init).map
        (fun r => (r.content, r.modelCalls, r.trace.length))
      = some ("still working", 10, 10) := by
  rfl

/-- C1 (amended): the model endpoint is called at most max_iterations (10)
times in every run; when the model requests tools on every iteration the
loop stops after exactly 10 model calls and returns the last response
content as a normal some-result — the budget exhaustion is silent, with no
IterationBudgetExceeded failure surfaced to the caller. -/
theorem iterationBudget_silent_return :
    (∀ (model : List ChatMsg → AssistantMsg) (tm : List (String × ToolImpl))
        (dur : String → ℚ) (q : String) (mon : PerfMonitor),
        (∀ msgs, (model msgs).tool_calls ≠ []) →
        (process_query model tm dur q mon).map RunResult.modelCalls = some 10
        ∧ (process_query model tm dur q mon).isSome = true)
    ∧ (∀ (model : List ChatMsg → AssistantMsg) (tm : List (String × ToolImpl))
        (dur : String → ℚ) (q : String) (mon : PerfMonitor) (r : RunResult),
        process_query model tm dur q mon = some r → r.modelCalls ≤ 10) := by
  constructor
  · intro model tm dur q mon h
    obtain ⟨r, hr, hcalls⟩ := processQueryAux_always_tools model tm dur h 9
      ((model [ChatMsg.human q]).tool_calls.foldl (execToolCall tm dur)
        { msgs := [ChatMsg.human q]
            ++ [ChatMsg.assistant (model [ChatMsg.human q])],
          trace := [], monitor := mon.log_query q })
      1 (model [ChatMsg.human q]).content
    have hstep : process_query model tm dur q mon
        = processQueryAux model tm dur 9
            ((model [ChatMsg.human q]).tool_calls.foldl (execToolCall tm dur)
              { msgs := [ChatMsg.human q]
                  ++ [ChatMsg.assistant (model [ChatMsg.human q])],
                trace := [], monitor := mon.log_query q })
            1 (some (model [ChatMsg.human q]).content) := by
      show processQueryAux model tm dur (9 + 1)
          { msgs := [ChatMsg.human q], trace := [],
            monitor := mon.log_query q } 0 none = _
      simp only [processQueryAux, if_neg (h [ChatMsg.human q])]
    rw [hstep, hr]
    exact ⟨by simp [hcalls], rfl⟩
  · intro model tm dur q mon r h
    exact processQueryAux_calls_le model tm dur 10 _ 0 none r h

/-- C1 witness: the always-requesting model endpoint drives a run that
ends as a normal answer with exactly 10 model calls. -/
theorem iterationBudget_silent_return_witness :
    (process_query modelAlwaysTools tmEmpty dur5 "q" PerfMonitor.init).map
        RunResult.modelCalls = some 10
    ∧ (process_query modelAlwaysTools tmEmpty dur5 "q" PerfMonitor.init).isSome
        = true :=
  iterationBudget_silent_return.1 modelAlwaysTools tmEmpty dur5 "q"
    PerfMonitor.init (fun _ => by simp [modelAlwaysTools])

/-- Helper: folding the per-request handler over a list of tool requests
adds exactly one trace record and one monitor duration per request,
whether or not the requested names exist in the registry. -/
lemma execToolCall_foldl_counts (tm : List (String × ToolImpl))
    (dur : String → ℚ) :
    ∀ (tcs : List ToolRequest) (st : LoopState),
      (tcs.foldl (execToolCall tm dur) st).trace.length
          = st.trace.length + tcs.length
      ∧ ((tcs.foldl (execToolCall tm dur) st).monitor.tool_calls.map
            (fun p => p.2.length)).sum
          = (st.monitor.tool_calls.map (fun p => p.2.length)).sum + tcs.length := by
  intro tcs
  induction tcs with
  | nil => intro st; simp
  | cons tc rest ih =>
    intro st
    have hstep1 : (execToolCall tm dur st tc).trace.length = st.trace.length + 1 := by
      simp [execToolCall]
    have hstep2 : ((execToolCall tm dur st tc).monitor.tool_calls.map
          (fun p => p.2.length)).sum
        = (st.monitor.tool_calls.map (fun p => p.2.length)).sum + 1 := by
      simp [execToolCall, PerfMonitor.log_tool_call, logToolCallAux_sum]
    obtain ⟨ih1, ih2⟩ := ih (execToolCall tm dur st tc)
    constructor
    · rw [List.foldl_cons, ih1, hstep1, List.length_cons]
      omega
    · rw [List.foldl_cons, ih2, hstep2, List.length_cons]
      omega

/-- C10 counterexample: in a run whose single tool request names
mystery_tool, the trace record is tagged with the inferred server Unknown,
but the monitor log entry created for the same request is keyed by the
tool name alone — the server tag Unknown appears nowhere among the
monitor dict keys, so the claim that the monitor entry too is tagged with
the inferred server name is false. -/
theorem monitor_entry_untagged_cex :
    (process_query modelUnknownOnce tmEmpty dur5 "q" PerfMonitor.init).map
        (fun r => (r.trace, r.monitor.tool_calls,
          decide ("Unknown" ∈ r.monitor.tool_calls.map Prod.fst)))
      = some ([{ name := "mystery_tool", duration_ms := 5, server := "Unknown" }],
              [("mystery_tool", [5])], false) := by
  rfl

/-- C10 (amended): every tool request emitted by the model — including
requests naming tools absent from the registry — appends exactly one
trace record, tagged with a server name inferred by substring matching on
the tool name (Unknown when no pattern matches), and exactly one
monitor tool-call log entry, keyed by the tool name; over a whole batch
of requests the trace and the monitor duration count each grow by the
number of requests, so the monitor counts attempted requests, not
successful executions. -/
theorem per_request_records_amended :
    (∀ (tm : List (String × ToolImpl)) (dur : String → ℚ) (st : LoopState)
        (tc : ToolRequest),
        (execToolCall tm dur st tc).trace
          = st.trace ++ [{ name := tc.name, duration_ms := dur tc.name,
                           server := get_server_for_tool tc.name }]
        ∧ (execToolCall tm dur st tc).monitor
          = st.monitor.log_tool_call tc.name (dur tc.name))
    ∧ (∀ (tm : List (String × ToolImpl)) (dur : String → ℚ)
        (tcs : List ToolRequest) (st : LoopState),
        (tcs.foldl (execToolCall tm dur) st).trace.length
            = st.trace.length + tcs.length
        ∧ ((tcs.foldl (execToolCall tm dur) st).monitor.tool_calls.map
              (fun p => p.2.length)).sum
            = (st.monitor.tool_calls.map (fun p => p.2.length)).sum + tcs.length)
    ∧ (∀ name : String,
        ["fighter", "stats", "compare", "career", "upcoming", "trajectory",
          "opponent", "title"].any (fun x => strContains name x) = false →
        ["odds", "betting", "value", "predict"].any
          (fun x => strContains name x) = false →
        ["news", "hype", "media", "press"].any
          (fun x => strContains name x) = false →
        ["reddit", "posts", "buzz", "sentiment", "mentions"].any
          (fun x => strContains name x) = false →
        get_server_for_tool name = "Unknown") := by
  refine ⟨?_, ?_, ?_⟩
  · intro tm dur st tc
    exact ⟨rfl, rfl⟩
  · intro tm dur tcs st
    exact execToolCall_foldl_counts tm dur tcs st
  · intro name h1 h2 h3 h4
    simp [get_server_for_tool, h1, h2, h3, h4]

/-- C10 witness: the unknown request for mystery_tool appends one trace
record tagged Unknown and one monitor entry keyed mystery_tool, and
mystery_tool matches none of the server name patterns. -/
theorem per_request_records_amended_witness :
    ((execToolCall tmEmpty dur5 stEx tcMystery).trace
        = stEx.trace ++ [{ name := tcMystery.name, duration_ms := dur5 tcMystery.name,
                           server := get_server_for_tool tcMystery.name }]
      ∧ (execToolCall tmEmpty dur5 stEx tcMystery).monitor
        = stEx.monitor.log_tool_call tcMystery.name (dur5 tcMystery.name))
    ∧ get_server_for_tool "mystery_tool" = "Unknown" :=
  ⟨per_request_records_amended.1 tmEmpty dur5 stEx tcMystery,
   per_request_records_amended.2.2 "mystery_tool" (by decide) (by decide)
     (by decide) (by decide)⟩
